import Mathlib

/-!
A verification development for the wbreviews streaming-ingestion pipeline.

The Python sources are shallowly embedded as executable Lean definitions:

* dynamic JSON scalar values become the inductive `JVal` (ints and strings,
  the shapes the transformers inspect); a field absent from a raw JSON
  object is `Option.none`;
* machine integers are `Nat`/`Int` (no overflow is relevant here);
* fallible parsing (`int(...)`) returns `Option`;
* the line-reading loop of optimized_loader_nd.py becomes a structurally
  recursive function over the list of input lines, with the sampled memory
  percentage and the interrupt flag supplied as oracles indexed by the
  `total_read` counter at the moment the source samples them;
* the external bulk-insert collaborator is assumed to accept every batch
  (its per-record fallback path is not exercised by any claim).
-/

set_option maxRecDepth 4000

/-- A decoded JSON scalar as the Python code sees it: an int or a str.
Other JSON shapes (floats, lists, objects) are never produced by the
fields the claims quantify over. -/
inductive JVal where
  | jint (n : Int)
  | jstr (s : String)
deriving DecidableEq

/-- Python truthiness for the embedded scalar values: 0 and the empty
string are falsy, everything else is truthy. -/
def JVal.truthy : JVal → Bool
  | .jint n => n != 0
  | .jstr s => s != ""

/-- Python `str(v)` on an embedded scalar. -/
def JVal.pyStr : JVal → String
  | .jint n => toString n
  | .jstr s => s

/-- The whitespace class used by Python `str.split()` / `str.strip()`
(space, tab, newline, carriage return, vertical tab, form feed). -/
def isPySpace (c : Char) : Bool :=
  c = ' ' || c = '\t' || c = '\n' || c = '\r' ||
  c = Char.ofNat 11 || c = Char.ofNat 12

/-- Numeric value of a list of decimal digit characters. -/
def natOfDigits (cs : List Char) : Nat :=
  cs.foldl (fun a c => a * 10 + (c.toNat - 48)) 0

/-- Python `int(s)` on a string: strips surrounding whitespace, allows one
leading sign, then requires a non-empty run of decimal digits; returns
`none` where Python raises `ValueError`. -/
def pyIntOfString (s : String) : Option Int :=
  let cs := ((s.data.dropWhile isPySpace).reverse.dropWhile isPySpace).reverse
  match cs with
  | [] => none
  | c :: rest =>
    if c = '-' then
      if !rest.isEmpty && rest.all Char.isDigit then
        some (-(natOfDigits rest : Int))
      else none
    else if c = '+' then
      if !rest.isEmpty && rest.all Char.isDigit then
        some ((natOfDigits rest : Int))
      else none
    else if (c :: rest).all Char.isDigit then
      some ((natOfDigits (c :: rest) : Int))
    else none

/-- Python `int(v)` on an embedded scalar (identity on ints, string parse
on strings). -/
def JVal.pyInt : JVal → Option Int
  | .jint n => some n
  | .jstr s => pyIntOfString s

/-- Model of `re.sub(r'[^\d]', '', s)`: keep only the decimal digits of a
string. -/
def digitsOnly (s : String) : String :=
  String.mk (s.data.filter fun c => c.isDigit)

/-- Python `a or b` on two optional scalars: the first operand when it is
present and truthy, otherwise the second operand. -/
def pyOrJ (a b : Option JVal) : Option JVal :=
  match a with
  | some v => if v.truthy then some v else b
  | none => b

/-- Python `b or d` where `b` is an optional string and `d` a default. -/
def strOr1 (b : Option String) (d : String) : String :=
  match b with
  | some t => if t != "" then t else d
  | none => d

/-- Python `a or b or d` on two optional strings with a string default. -/
def strOr2 (a b : Option String) (d : String) : String :=
  match a with
  | some s => if s != "" then s else strOr1 b d
  | none => strOr1 b d

/-- Python `s.split()` over a character list: the maximal runs of
non-whitespace characters, with leading and trailing whitespace ignored.
The accumulator holds the current (reversed) token. -/
def pySplitAux : List Char → List Char → List (List Char)
  | [], acc => if acc.isEmpty then [] else [acc.reverse]
  | c :: cs, acc =>
    if isPySpace c then
      if acc.isEmpty then pySplitAux cs [] else acc.reverse :: pySplitAux cs []
    else pySplitAux cs (c :: acc)

/-- Python `s.split()` on a string (whitespace split, no empty tokens). -/
def pySplit (s : String) : List String :=
  (pySplitAux s.data []).map String.mk

/-- Python `s.strip()` over a character list. -/
def pyStripList (cs : List Char) : List Char :=
  ((cs.dropWhile isPySpace).reverse.dropWhile isPySpace).reverse

/-- Python `s.strip()` on a string. -/
def pyStrip (s : String) : String :=
  String.mk (pyStripList s.data)

/-- The character class of the word-counting regex in loader.py
(`[а-яА-ЯёЁa-zA-Z0-9]`): Latin letters, Cyrillic letters, decimal digits. -/
def isLoaderWordChar (c : Char) : Bool :=
  ('a' ≤ c && c ≤ 'z') || ('A' ≤ c && c ≤ 'Z') || ('0' ≤ c && c ≤ '9') ||
  ('а' ≤ c && c ≤ 'я') || ('А' ≤ c && c ≤ 'Я') || c = 'ё' || c = 'Ё'

/-- Number of maximal runs of characters satisfying `p` (the length of
`re.findall` for a one-class-plus pattern); the flag records whether the
previous character was inside a run. -/
def countRunsAux (p : Char → Bool) : List Char → Bool → Nat
  | [], _ => 0
  | c :: cs, inRun =>
    if p c then (if inRun then 0 else 1) + countRunsAux p cs true
    else countRunsAux p cs false

/-- Number of maximal runs of characters satisfying `p` in a list. -/
def countRuns (p : Char → Bool) (cs : List Char) : Nat :=
  countRunsAux p cs false

/-- A raw review object as decoded from one JSON line (loader.py and
optimized_loader.py); `none` means the field is absent. -/
structure RawReview where
  nmId : Option JVal := none
  nmld : Option JVal := none
  text : Option String := none
  productValuation : Option Int := none
  color : Option String := none
  answer : Option String := none
deriving DecidableEq

/-- The normalized review record built by the review transformers.  The
`color` and `answer` fields live in Python's str-or-None space, embedded
as `Option String` (`none` is Python `None`). -/
structure ReviewRecord where
  nm_id : String
  product_valuation : Int
  color : Option String
  review_text : String
  answer : Option String
  word_count : Nat
  has_answer : Bool
  text_length : Nat
deriving DecidableEq

namespace Loader

/-- loader.py `count_words`: strip, then count the matches of the regex
`[а-яА-ЯёЁa-zA-Z0-9]+`, i.e. the maximal alphanumeric runs. -/
def count_words (text : String) : Nat :=
  if text = "" then 0
  else
    let t := pyStrip text
    if t = "" then 0 else countRuns isLoaderWordChar t.data

/-- loader.py `process_review_data`: transform one raw review into a
normalized record, or `none` when a validation rule rejects it. -/
def process_review_data (item : RawReview) : Option ReviewRecord :=
  match pyOrJ item.nmId item.nmld with
  | none => none
  | some v =>
    if !v.truthy then none
    else
      let review_text := item.text.getD ""
      if review_text = "" then none
      else
        let word_count := count_words review_text
        if word_count ≤ 20 then none
        else
          let product_valuation := item.productValuation.getD 5
          let color := item.color.getD ""
          let answer := item.answer.getD ""
          some {
            nm_id := v.pyStr
            product_valuation := product_valuation
            color := some (if color != "" then color.take 100 else "")
            review_text := review_text
            answer := some answer
            word_count := word_count
            has_answer := pyStrip answer != ""
            text_length := review_text.length }

end Loader

namespace OptLoader

/-- optimized_loader.py `count_words`: strip, then `len(text.split())`. -/
def count_words (text : String) : Nat :=
  if text = "" then 0
  else
    let t := pyStrip text
    if t = "" then 0 else (pySplitAux t.data []).length

/-- The per-item body of optimized_loader.py `process_chunk`: transform
one raw review, `none` when it is skipped. -/
def processItem (item : RawReview) : Option ReviewRecord :=
  let nm_id := (pyOrJ item.nmId item.nmld).getD (.jstr "")
  let review_text := item.text.getD ""
  if !nm_id.truthy || review_text = "" then none
  else
    let word_count := count_words review_text
    if word_count ≤ 20 then none
    else
      let product_valuation := item.productValuation.getD 5
      let color := item.color.getD ""
      let answer := item.answer.getD ""
      some {
        nm_id := nm_id.pyStr
        product_valuation := if product_valuation != 0 then product_valuation else 5
        color := some (if color != "" then color.take 100 else "")
        review_text := review_text
        answer := some answer
        word_count := word_count
        has_answer := pyStrip answer != ""
        text_length := review_text.length }

/-- optimized_loader.py `process_chunk`: keep the transformed records of a
chunk. -/
def process_chunk (chunk : List RawReview) : List ReviewRecord :=
  chunk.filterMap processItem

end OptLoader

/-- A raw product object as decoded from one JSON line
(optimized_loader_nd.py); `none` means the field is absent.  Identifier
fields keep the full scalar space `JVal`; the name-like fields are
restricted to the strings the code turns them into. -/
structure RawProduct where
  imt_id : Option JVal := none
  nm_id : Option JVal := none
  imtId : Option JVal := none
  imtID : Option JVal := none
  nmId : Option JVal := none
  nmID : Option JVal := none
  imt_name : Option String := none
  imtName : Option String := none
  subj_name : Option String := none
  subjName : Option String := none
  subj_root_name : Option String := none
  subjRootName : Option String := none
  nm_colors_names : Option String := none
  nmColorsNames : Option String := none
  vendor_code : Option String := none
  vendorCode : Option String := none
  description : Option String := none
  brand_name : Option String := none
  brandName : Option String := none
deriving DecidableEq

/-- The normalized product record built by `parse_product_item`. -/
structure ProductRecord where
  imt_id : Option Int
  nm_id : Int
  imt_name : String
  subj_name : String
  subj_root_name : String
  nm_colors_names : String
  vendor_code : String
  description : String
  brand_name : String
deriving DecidableEq

/-- One checkpoint as passed to `CheckpointManager.save_checkpoint`
(timestamps are not modeled). -/
structure SavedCheckpoint where
  file_path : String
  byte_position : Nat
  line_number : Nat
  inserted_count : Nat
  reason : String
deriving DecidableEq

/-- The in-memory progress mirror `CURRENT_PROGRESS` of
optimized_loader_nd.py (also mirrored inside the checkpoint manager by
`update_progress`, with identical field values). -/
structure Progress where
  file_path : Option String
  byte_position : Nat
  line_number : Nat
  inserted_count : Nat
deriving DecidableEq

namespace NDLoader

/-- The `nm_id` alias resolution of `parse_product_item` (lines 125-137):
the `nm_id` key itself, and only when that key is absent, the Python
or-chain over the `nmId` / `nmID` aliases. -/
def resolve_nm_id (item : RawProduct) : Option JVal :=
  match item.nm_id with
  | some v => some v
  | none => pyOrJ item.nmId item.nmID

/-- The `imt_id` alias resolution of `parse_product_item`. -/
def resolve_imt_id (item : RawProduct) : Option JVal :=
  match item.imt_id with
  | some v => some v
  | none => pyOrJ item.imtId item.imtID

/-- The `nm_id_int` computation of `parse_product_item`: `int(nm_id)`,
falling back to the digits kept by `re.sub(r'[^\d]', '', str(nm_id))`,
and 0 when no digits remain. -/
def nm_id_int (v : JVal) : Int :=
  match v.pyInt with
  | some n => n
  | none =>
    let cleaned := digitsOnly v.pyStr
    if cleaned != "" then (natOfDigits cleaned.data : Int) else 0

/-- The `imt_id_int` computation of `parse_product_item`: like
`nm_id_int` but yielding `none` (not 0) when no digits remain. -/
def imt_id_int (v : JVal) : Option Int :=
  match v.pyInt with
  | some n => some n
  | none =>
    let cleaned := digitsOnly v.pyStr
    if cleaned != "" then some ((natOfDigits cleaned.data : Int)) else none

/-- optimized_loader_nd.py `parse_product_item`: transform one raw
product, `none` when the record is rejected. -/
def parse_product_item (item : RawProduct) : Option ProductRecord :=
  match resolve_nm_id item with
  | none => none
  | some v =>
    if nm_id_int v = 0 then none
    else
      some {
        imt_id := (resolve_imt_id item).bind imt_id_int
        nm_id := nm_id_int v
        imt_name := (strOr2 item.imt_name item.imtName "").take 500
        subj_name := (strOr2 item.subj_name item.subjName "").take 200
        subj_root_name := (strOr2 item.subj_root_name item.subjRootName "").take 200
        nm_colors_names := (strOr2 item.nm_colors_names item.nmColorsNames "").take 500
        vendor_code := (strOr2 item.vendor_code item.vendorCode "").take 100
        description := strOr1 item.description ""
        brand_name := (strOr2 item.brand_name item.brandName "Неизвестный бренд").take 200 }

/-- optimized_loader_nd.py `process_chunk`: keep the parsed products of a
chunk. -/
def process_chunk (chunk : List RawProduct) : List ProductRecord :=
  chunk.filterMap parse_product_item

/-- One input line of the newline-delimited file: its UTF-8 byte length
(`len(line.encode('utf-8'))`) and the outcome of `json.loads` on it
(`none` models a `JSONDecodeError`). -/
structure NDLine where
  byteLen : Nat
  item : Option RawProduct
deriving DecidableEq

/-- The mutable state of `process_file_with_checkpoint` for a fresh run
(`start_byte = 0`): the statistics counters, the byte cursor, the
progress mirror, the open chunk, the pending insert batch, the last
auto-saved line, and the logs of checkpoint saves and of batch flushes
to the bulk-insert collaborator. -/
structure NDState where
  total_read : Nat
  total_processed : Nat
  total_inserted : Nat
  byte_position : Nat
  progress : Progress
  chunk : List RawProduct
  insert_batch : List ProductRecord
  last_checkpoint_line : Nat
  checkpoints : List SavedCheckpoint
  flushes : List Nat
deriving DecidableEq

/-- Why the per-file loop returned before end of file. -/
inductive NDHalt where
  | memoryLimit
  | stopRequested
deriving DecidableEq

/-- Result of the per-file loop: final state, and the early-return cause
when the file was not read to the end (the function returns its
statistics tuple normally in every case). -/
structure NDResult where
  state : NDState
  halted : Option NDHalt
deriving DecidableEq

/-- The state at entry of the read loop (lines 266-291): all counters 0,
the progress mirror primed with the file path. -/
def initState (fp : String) : NDState :=
  { total_read := 0, total_processed := 0, total_inserted := 0
    byte_position := 0
    progress := { file_path := some fp, byte_position := 0, line_number := 0,
                  inserted_count := 0 }
    chunk := [], insert_batch := [], last_checkpoint_line := 0
    checkpoints := [], flushes := [] }

/-- `fast_insert_batch_products` on the pending batch (assumed to insert
every record) followed by clearing the batch: the flush size is logged. -/
def flushBatch (st : NDState) : NDState :=
  { st with flushes := st.flushes ++ [st.insert_batch.length]
            total_inserted := st.total_inserted + st.insert_batch.length
            insert_batch := [] }

/-- Lines 307-323 of the loop body: advance the byte cursor past the
current line and republish the progress mirror (line_number is
`total_read`, the count of previously consumed lines). -/
def updateProgressLine (fp : String) (st : NDState) (ln : NDLine) : NDState :=
  { st with byte_position := st.byte_position + ln.byteLen
            progress := { file_path := some fp
                          byte_position := st.byte_position + ln.byteLen
                          line_number := st.total_read
                          inserted_count := st.total_inserted } }

/-- The checkpoint written when the memory limit is breached
(lines 335-341). -/
def memoryCheckpoint (fp : String) (st : NDState) : SavedCheckpoint :=
  { file_path := fp, byte_position := st.byte_position
    line_number := st.total_read, inserted_count := st.total_inserted
    reason := "memory_limit_exceeded" }

/-- Lines 357-372: at every 50,000th consumed line the status is printed,
and a checkpoint with reason auto_save is written when at least 100,000
lines have passed since the last one. -/
def autoSaveStep (fp : String) (st : NDState) : NDState :=
  if st.total_read % 50000 = 0 ∧ 100000 ≤ st.total_read - st.last_checkpoint_line then
    { st with
        checkpoints := st.checkpoints ++
          [{ file_path := fp, byte_position := st.byte_position
             line_number := st.total_read, inserted_count := st.total_inserted
             reason := "auto_save" }]
        last_checkpoint_line := st.total_read }
  else st

/-- Lines 374-397: decode the line, append to the chunk, process a full
chunk (10,000 items) and flush the insert batch at 2,000 records. -/
def chunkStep (st : NDState) (ln : NDLine) : NDState :=
  match ln.item with
  | none => st
  | some it =>
    let chunk := st.chunk ++ [it]
    if 10000 ≤ chunk.length then
      let processed := process_chunk chunk
      let st := { st with total_processed := st.total_processed + processed.length
                          insert_batch := st.insert_batch ++ processed
                          chunk := [] }
      if 2000 ≤ st.insert_batch.length then flushBatch st else st
    else { st with chunk := chunk }

/-- Lines 399-408: at end of file, process the final partial chunk and
flush the remaining insert batch. -/
def finishFile (st : NDState) : NDState :=
  let st :=
    if st.chunk.isEmpty then st
    else
      let processed := process_chunk st.chunk
      { st with total_processed := st.total_processed + processed.length
                insert_batch := st.insert_batch ++ processed
                chunk := [] }
  if st.insert_batch.isEmpty then st else flushBatch st

/-- The line-reading loop of `process_file_with_checkpoint` (lines
306-408) over the remaining lines.  `mem k` is the sampled memory
percentage and `stop k` the `SHOULD_STOP` flag at the moment the loop
observes them with `total_read = k`; the memory check runs every 1,000
lines against the hard-coded 88 percent limit, and either early return
hands the statistics back normally. -/
def runAux (fp : String) (mem : Nat → Nat) (stop : Nat → Bool) :
    List NDLine → NDState → NDResult
  | [], st => { state := finishFile st, halted := none }
  | ln :: rest, st =>
    let st := updateProgressLine fp st ln
    if st.total_read % 1000 = 0 ∧ 88 < mem st.total_read then
      { state := { st with checkpoints := st.checkpoints ++ [memoryCheckpoint fp st] }
        halted := some .memoryLimit }
    else if stop st.total_read then
      { state := st, halted := some .stopRequested }
    else
      runAux fp mem stop rest
        (chunkStep (autoSaveStep fp { st with total_read := st.total_read + 1 }) ln)

/-- `process_file_with_checkpoint` on a fresh file (`start_byte = 0`). -/
def runND (fp : String) (mem : Nat → Nat) (stop : Nat → Bool)
    (lines : List NDLine) : NDResult :=
  runAux fp mem stop lines (initState fp)

/-- The module-level mutable state of optimized_loader_nd.py that the
signal handler touches: the stop flag, the `CURRENT_PROGRESS` mirror,
whether the global checkpoint manager has been created, and the log of
checkpoints saved through it. -/
structure NDGlobals where
  should_stop : Bool
  current_progress : Progress
  has_manager : Bool
  saved : List SavedCheckpoint
deriving DecidableEq

/-- `emergency_save_checkpoint` (lines 48-61): save a checkpoint from the
`CURRENT_PROGRESS` mirror, provided the manager exists and the mirror
names a file. -/
def emergency_save_checkpoint (g : NDGlobals) (reason : String) : NDGlobals :=
  match g.current_progress.file_path with
  | some fp =>
    if g.has_manager && fp != "" then
      { g with saved := g.saved ++
          [{ file_path := fp
             byte_position := g.current_progress.byte_position
             line_number := g.current_progress.line_number
             inserted_count := g.current_progress.inserted_count
             reason := reason }] }
    else g
  | none => g

/-- What the interrupt handler does besides mutating the globals: how long
it sleeps before exiting, and the process exit status it requests. -/
structure HandlerOutcome where
  globals : NDGlobals
  sleep_seconds : Nat
  exit_code : Nat
deriving DecidableEq

/-- `signal_handler` (lines 64-83): set `SHOULD_STOP`, immediately save a
checkpoint with reason user_interrupt from the progress mirror, sleep one
second, then call `sys.exit(0)`. -/
def signal_handler (g : NDGlobals) : HandlerOutcome :=
  let g := { g with should_stop := true }
  let g := emergency_save_checkpoint g "user_interrupt"
  { globals := g, sleep_seconds := 1, exit_code := 0 }

end NDLoader

/-- A checkpoint JSON document as it sits on disk: every field optional
(`none` means the key is absent), numeric fields restricted to the ints
the validator type-checks them against. -/
structure CheckpointDoc where
  file_path : Option String := none
  byte_position : Option Int := none
  line_number : Option Int := none
  inserted_count : Option Int := none
  timestamp : Option String := none
  reason : Option String := none
  program_version : Option String := none
  version : Option String := none
deriving DecidableEq

namespace CheckpointManager

/-- Contents of a file slot in the checkpoint directory: a fully written
JSON document, or bytes truncated by a crash mid-write (which
`json.load` would fail to parse). -/
inductive FileData where
  | whole (c : CheckpointDoc)
  | truncated
deriving DecidableEq

/-- checkpoint_manager.py `_validate_checkpoint` (lines 99-123): the four
required keys must be present, and `byte_position` / `line_number` must
be non-negative ints.  A missing referenced data file is only logged, so
it does not influence the result. -/
def validate_checkpoint (c : CheckpointDoc) : Bool :=
  c.file_path.isSome && c.byte_position.isSome && c.line_number.isSome &&
  c.inserted_count.isSome &&
  (match c.byte_position with | some b => decide (0 ≤ b) | none => false) &&
  (match c.line_number with | some n => decide (0 ≤ n) | none => false)

/-- checkpoint_manager.py `load_checkpoint` (lines 72-97): a missing or
unparseable file, or a document failing validation, yields no usable
checkpoint; otherwise the parsed document is returned unchanged. -/
def load_checkpoint : Option FileData → Option CheckpointDoc
  | none => none
  | some .truncated => none
  | some (.whole c) => if validate_checkpoint c then some c else none

/-- The filesystem states observable around `save_checkpoint` (lines
44-53), as pairs (tmp slot, durable slot) given the prior durable
contents: before the temp write, after a crash mid temp write, after the
complete temp write, and after the atomic `os.replace`/`os.rename` of
the temp file over the durable path.  A crash may stop the sequence at
any of these states. -/
def save_checkpoint_states (prior : Option FileData) (c : CheckpointDoc) :
    List (Option FileData × Option FileData) :=
  [ (none, prior),
    (some .truncated, prior),
    (some (.whole c), prior),
    (none, some (.whole c)) ]

end CheckpointManager

namespace CheckpointUtils

/-- The trigger of checkpoint_utils.py `convert_old_checkpoint` (line
103): a document is treated as the old shape when it carries
`byte_position` and no `version` tag. -/
def needs_conversion (c : CheckpointDoc) : Bool :=
  c.byte_position.isSome && c.version.isNone

/-- checkpoint_utils.py `convert_old_checkpoint` (lines 113-124), after
the operator confirms: rebuild the document with only the line-based
fields, tagged `line_based_v1`, dropping `byte_position` (the fresh
timestamp default is not modeled). -/
def convert_old_checkpoint (c : CheckpointDoc) : CheckpointDoc :=
  { file_path := c.file_path
    byte_position := none
    line_number := some (c.line_number.getD 0)
    inserted_count := some (c.inserted_count.getD 0)
    timestamp := some (c.timestamp.getD "")
    reason := some (c.reason.getD "converted")
    program_version := none
    version := some "line_based_v1" }

end CheckpointUtils

namespace NDLoader

/-- Python `f.readline()` on a byte string: consume up to and including
the first newline byte (10). -/
def pyReadLine : List Nat → List Nat × List Nat
  | [] => ([], [])
  | b :: bs =>
    if b = 10 then ([10], bs)
    else
      let p := pyReadLine bs
      (b :: p.1, p.2)

/-- The lines yielded by iterating a Python text file over a byte string:
terminator-complete lines, plus a final unterminated fragment when the
bytes do not end in a newline.  The accumulator holds the current
(reversed) partial line. -/
def pyLinesAux : List Nat → List Nat → List (List Nat)
  | [], acc => if acc.isEmpty then [] else [acc.reverse]
  | b :: bs, acc =>
    if b = 10 then (acc.reverse ++ [10]) :: pyLinesAux bs []
    else pyLinesAux bs (b :: acc)

/-- The lines of a byte string, as Python file iteration yields them. -/
def pyLines (bs : List Nat) : List (List Nat) :=
  pyLinesAux bs []

/-- The resume prelude of `process_file_with_checkpoint` (lines 294-306):
seek to `start_byte`, and when it is positive discard one `readline()`
before iterating; the result is the list of lines the main loop then
receives. -/
def resumeProcessedLines (file : List Nat) (startByte : Nat) : List (List Nat) :=
  let rest := file.drop startByte
  if 0 < startByte then pyLines (pyReadLine rest).2 else pyLines rest

/-- A byte list that is one complete line: non-empty, ending in the
newline byte, with no interior newline. -/
def lineTerminated (l : List Nat) : Prop :=
  l ≠ [] ∧ l.getLast? = some 10 ∧ 10 ∉ l.dropLast

instance (l : List Nat) : Decidable (lineTerminated l) := by
  unfold lineTerminated; infer_instance

end NDLoader

namespace Loader

/-- The per-file state of loader.py `main` (lines 180-231): statistics,
the pending insert batch and the log of `insert_batch` flush sizes. -/
structure LoaderState where
  total_read : Nat
  total_processed : Nat
  total_inserted : Nat
  insert_batch_data : List ReviewRecord
  flushes : List Nat
deriving DecidableEq

/-- loader.py `insert_batch` on the pending batch (assumed to insert every
record) followed by clearing it. -/
def flushBatch (st : LoaderState) : LoaderState :=
  { st with flushes := st.flushes ++ [st.insert_batch_data.length]
            total_inserted := st.total_inserted + st.insert_batch_data.length
            insert_batch_data := [] }

/-- The per-item loop of loader.py `main` (lines 199-221) over the decoded
records, followed by the final flush of lines 229-231: count the record,
keep it when the transformer accepts it, and flush whenever the batch
reaches `INSERT_BATCH_SIZE` (`B`). -/
def runItems (B : Nat) : List RawReview → LoaderState → LoaderState
  | [], st => if st.insert_batch_data.isEmpty then st else flushBatch st
  | item :: rest, st =>
    let st := { st with total_read := st.total_read + 1 }
    let st :=
      match process_review_data item with
      | some r =>
        { st with total_processed := st.total_processed + 1
                  insert_batch_data := st.insert_batch_data ++ [r] }
      | none => st
    let st := if B ≤ st.insert_batch_data.length then flushBatch st else st
    runItems B rest st

/-- loader.py `main` restricted to its batching behaviour, on the stream
of successfully decoded records (`stream_json_file` flattens to this
list; decode failures are skipped before this loop). -/
def runLoader (B : Nat) (items : List RawReview) : LoaderState :=
  runItems B items { total_read := 0, total_processed := 0, total_inserted := 0,
                     insert_batch_data := [], flushes := [] }

end Loader

namespace OptLoader

/-- The collection-phase state of optimized_loader.py
`process_single_file_parallel`. -/
structure OptState where
  total_read : Nat
  total_processed : Nat
  total_inserted : Nat
  insert_batch_data : List ReviewRecord
  flushes : List Nat
deriving DecidableEq

/-- optimized_loader.py `fast_insert_batch` on the pending batch (assumed
to insert every record) followed by clearing it. -/
def flushBatch (st : OptState) : OptState :=
  { st with flushes := st.flushes ++ [st.insert_batch_data.length]
            total_inserted := st.total_inserted + st.insert_batch_data.length
            insert_batch_data := [] }

/-- The per-future body of the collection loop (lines 160-188): process
the chunk, extend the batch, and flush when the batch has reached
`INSERT_BATCH_SIZE * 2` (`B` is `INSERT_BATCH_SIZE`). -/
def collectChunk (B : Nat) (st : OptState) (chunk : List RawReview) : OptState :=
  let processed := process_chunk chunk
  let st := { st with total_processed := st.total_processed + processed.length
                      insert_batch_data := st.insert_batch_data ++ processed }
  if B * 2 ≤ st.insert_batch_data.length then flushBatch st else st

/-- `process_single_file_parallel` (lines 143-193) on the chunk list in
its completion order: the submission phase counts every line read, the
collection phase batches and flushes, and the final partial batch is
flushed at the end. -/
def runOpt (B : Nat) (chunks : List (List RawReview)) : OptState :=
  let st0 : OptState :=
    { total_read := (chunks.map List.length).sum
      total_processed := 0, total_inserted := 0
      insert_batch_data := [], flushes := [] }
  let st := chunks.foldl (collectChunk B) st0
  if st.insert_batch_data.isEmpty then st else flushBatch st

end OptLoader

/-- A 21-word review text (one over the filter threshold). -/
def text21 : String :=
  "w w w w w w w w w w w w w w w w w w w w w"

/-- A review text of 11 whitespace-separated tokens, each of which the
loader.py regex counts as two words. -/
def c3text : String :=
  "a-b a-b a-b a-b a-b a-b a-b a-b a-b a-b a-b"

/-- The record loader.py builds from a raw review with id "9", text
`text21` and no other fields. -/
def rec21 : ReviewRecord :=
  { nm_id := "9", product_valuation := 5, color := some "",
    review_text := text21, answer := some "", word_count := 21,
    has_answer := false, text_length := 41 }

/-- A well-formed legacy (byte-offset) checkpoint document. -/
def legacyDoc : CheckpointDoc :=
  { file_path := some "basket-01.json", byte_position := some 100,
    line_number := some 5, inserted_count := some 7 }

/-! ## Helper lemmas about the Python string primitives -/

theorem pySplitAux_nil (acc : List Char) :
    pySplitAux [] acc = if acc.isEmpty then [] else [acc.reverse] := rfl

theorem pySplitAux_dropWhile (cs : List Char) :
    pySplitAux (cs.dropWhile isPySpace) [] = pySplitAux cs [] := by
  induction cs with
  | nil => rfl
  | cons c cs ih =>
    by_cases h : isPySpace c
    · rw [List.dropWhile_cons_of_pos h, ih]
      simp [pySplitAux, h]
    · rw [List.dropWhile_cons_of_neg h]

theorem pySplitAux_spaces :
    ∀ (sp : List Char), (∀ c ∈ sp, isPySpace c) → ∀ acc : List Char,
      pySplitAux sp acc = if acc.isEmpty then [] else [acc.reverse] := by
  intro sp
  induction sp with
  | nil => intro _ acc; rfl
  | cons c cs ih =>
    intro hsp acc
    have hc : isPySpace c = true := hsp c (by simp)
    have hcs : ∀ x ∈ cs, isPySpace x := fun x hx => hsp x (by simp [hx])
    by_cases ha : acc.isEmpty <;>
      simp [pySplitAux, hc, ha, ih hcs]

theorem pySplitAux_append_spaces :
    ∀ (cs sp : List Char), (∀ c ∈ sp, isPySpace c) → ∀ acc : List Char,
      pySplitAux (cs ++ sp) acc = pySplitAux cs acc := by
  intro cs
  induction cs with
  | nil =>
    intro sp hsp acc
    rw [List.nil_append, pySplitAux_spaces sp hsp acc, pySplitAux_nil]
  | cons c cs ih =>
    intro sp hsp acc
    by_cases h : isPySpace c
    · by_cases ha : acc.isEmpty <;>
        simp [pySplitAux, h, ha, ih sp hsp]
    · simp [pySplitAux, h, ih sp hsp]

theorem pySplitAux_strip (cs : List Char) :
    pySplitAux (pyStripList cs) [] = pySplitAux cs [] := by
  unfold pyStripList
  set ys := cs.dropWhile isPySpace with hys
  have hdecomp : ys = (ys.reverse.dropWhile isPySpace).reverse ++
      (ys.reverse.takeWhile isPySpace).reverse := by
    conv_lhs => rw [← List.reverse_reverse ys,
      ← List.takeWhile_append_dropWhile (p := isPySpace) (l := ys.reverse)]
    rw [List.reverse_append]
  have hsp : ∀ c ∈ (ys.reverse.takeWhile isPySpace).reverse, isPySpace c := by
    intro c hc
    rw [List.mem_reverse] at hc
    exact List.mem_takeWhile_imp hc
  calc pySplitAux (ys.reverse.dropWhile isPySpace).reverse []
      = pySplitAux ((ys.reverse.dropWhile isPySpace).reverse ++
          (ys.reverse.takeWhile isPySpace).reverse) [] := by
        rw [pySplitAux_append_spaces _ _ hsp]
    _ = pySplitAux ys [] := by rw [← hdecomp]
    _ = pySplitAux cs [] := by rw [hys, pySplitAux_dropWhile]

theorem string_data_mk (cs : List Char) : (String.mk cs).data = cs := rfl

theorem count_words_eq_pySplit (t : String) :
    OptLoader.count_words t = (pySplit t).length := by
  unfold OptLoader.count_words pySplit
  by_cases h : t = ""
  · subst h; rfl
  · rw [if_neg h]
    have hdata : (pyStrip t).data = pyStripList t.data := rfl
    by_cases h2 : pyStrip t = ""
    · have h3 : pyStripList t.data = [] := by
        have := congrArg String.data h2
        rwa [hdata] at this
      rw [if_pos h2, List.length_map, ← pySplitAux_strip, h3, pySplitAux_nil]
      rfl
    · rw [if_neg h2, List.length_map, hdata, pySplitAux_strip]

theorem mem_of_mem_pyStripped {c : Char} {l : List Char}
    (h : c ∈ ((l.dropWhile isPySpace).reverse.dropWhile isPySpace).reverse) :
    c ∈ l := by
  rw [List.mem_reverse] at h
  have h1 := (List.dropWhile_sublist (p := isPySpace)
    (l := (l.dropWhile isPySpace).reverse)).subset h
  rw [List.mem_reverse] at h1
  exact (List.dropWhile_sublist (p := isPySpace) (l := l)).subset h1

theorem pyIntOfString_no_digit (s : String)
    (h : ∀ c ∈ s.data, c.isDigit = false) :
    pyIntOfString s = none := by
  unfold pyIntOfString
  rcases hc : ((s.data.dropWhile isPySpace).reverse.dropWhile isPySpace).reverse with
    _ | ⟨c, rest⟩
  · rfl
  · have hmem : ∀ x ∈ c :: rest, x ∈ s.data := by
      intro x hx
      exact mem_of_mem_pyStripped (hc ▸ hx)
    have hrest : rest.all Char.isDigit = true → rest = [] := by
      intro hall
      rcases rest with _ | ⟨d, ds⟩
      · rfl
      · exfalso
        have hd : d.isDigit = true := by
          rw [List.all_eq_true] at hall
          exact hall d (by simp)
        have := h d (hmem d (by simp))
        rw [this] at hd
        exact Bool.noConfusion hd
    simp only []
    split_ifs with h1 h2 h3 h4 h5 <;> try rfl
    · exfalso
      rw [Bool.and_eq_true] at h2
      have h0 := hrest h2.2
      subst h0
      simp at h2
    · exfalso
      rw [Bool.and_eq_true] at h4
      have h0 := hrest h4.2
      subst h0
      simp at h4
    · exfalso
      rw [List.all_eq_true] at h5
      have hcd := h5 c (by simp)
      have hcf := h c (hmem c (by simp))
      rw [hcf] at hcd
      exact Bool.noConfusion hcd

/-! ## Helper lemmas about the byte-level resume model -/

namespace NDLoader

theorem lineTerminated_cons {b b2 : Nat} {bs2 : List Nat}
    (h : lineTerminated (b :: b2 :: bs2)) :
    b ≠ 10 ∧ lineTerminated (b2 :: bs2) := by
  rcases h with ⟨-, hlast, hdrop⟩
  rw [List.getLast?_cons_cons] at hlast
  rw [List.dropLast_cons₂] at hdrop
  refine ⟨?_, by simp, hlast, ?_⟩
  · intro hb
    exact hdrop (hb ▸ List.mem_cons_self _ _)
  · intro hmem
    exact hdrop (List.mem_cons_of_mem _ hmem)

theorem pyReadLine_cons_ne (b : Nat) (bs : List Nat) (hb : b ≠ 10) :
    pyReadLine (b :: bs) = (b :: (pyReadLine bs).1, (pyReadLine bs).2) := by
  simp [pyReadLine, hb]

theorem pyReadLine_append (l r : List Nat) (hl : lineTerminated l) :
    pyReadLine (l ++ r) = (l, r) := by
  induction l generalizing r with
  | nil => exact absurd rfl hl.1
  | cons b bs ih =>
    cases bs with
    | nil =>
      have hb : b = 10 := by simpa using hl.2.1
      subst hb
      simp [pyReadLine]
    | cons b2 bs2 =>
      obtain ⟨hb, hterm⟩ := lineTerminated_cons hl
      rw [List.cons_append, pyReadLine_cons_ne b _ hb, ih r hterm]

theorem pyLinesAux_append (l : List Nat) (hl : lineTerminated l) :
    ∀ (r acc : List Nat),
      pyLinesAux (l ++ r) acc = (acc.reverse ++ l) :: pyLinesAux r [] := by
  induction l with
  | nil => exact absurd rfl hl.1
  | cons b bs ih =>
    intro r acc
    cases bs with
    | nil =>
      have hb : b = 10 := by simpa using hl.2.1
      subst hb
      simp [pyLinesAux]
    | cons b2 bs2 =>
      obtain ⟨hb, hterm⟩ := lineTerminated_cons hl
      have hstep := ih hterm r (b :: acc)
      simp only [List.cons_append, pyLinesAux, if_neg hb] at hstep ⊢
      rw [hstep]
      simp

theorem pyLines_flatten :
    ∀ (lines : List (List Nat)), (∀ l ∈ lines, lineTerminated l) →
      pyLines lines.flatten = lines := by
  intro lines
  induction lines with
  | nil => intro _; rfl
  | cons l rest ih =>
    intro h
    have hl := h l (by simp)
    rw [List.flatten_cons]
    unfold pyLines
    rw [pyLinesAux_append l hl rest.flatten []]
    have := ih (fun x hx => h x (by simp [hx]))
    unfold pyLines at this
    rw [this]
    simp

/-! ## State-projection lemmas for the per-file loop -/

@[simp] theorem flushBatch_total_read (st : NDState) :
    (flushBatch st).total_read = st.total_read := rfl

@[simp] theorem flushBatch_checkpoints (st : NDState) :
    (flushBatch st).checkpoints = st.checkpoints := rfl

@[simp] theorem flushBatch_last_checkpoint_line (st : NDState) :
    (flushBatch st).last_checkpoint_line = st.last_checkpoint_line := rfl

@[simp] theorem flushBatch_progress (st : NDState) :
    (flushBatch st).progress = st.progress := rfl

@[simp] theorem flushBatch_byte_position (st : NDState) :
    (flushBatch st).byte_position = st.byte_position := rfl

@[simp] theorem chunkStep_total_read (st : NDState) (ln : NDLine) :
    (chunkStep st ln).total_read = st.total_read := by
  rcases hitem : ln.item with _ | it <;>
    simp only [chunkStep, hitem] <;> try rfl
  split_ifs <;> rfl

@[simp] theorem chunkStep_checkpoints (st : NDState) (ln : NDLine) :
    (chunkStep st ln).checkpoints = st.checkpoints := by
  rcases hitem : ln.item with _ | it <;>
    simp only [chunkStep, hitem] <;> try rfl
  split_ifs <;> rfl

@[simp] theorem chunkStep_last_checkpoint_line (st : NDState) (ln : NDLine) :
    (chunkStep st ln).last_checkpoint_line = st.last_checkpoint_line := by
  rcases hitem : ln.item with _ | it <;>
    simp only [chunkStep, hitem] <;> try rfl
  split_ifs <;> rfl

@[simp] theorem chunkStep_progress (st : NDState) (ln : NDLine) :
    (chunkStep st ln).progress = st.progress := by
  rcases hitem : ln.item with _ | it <;>
    simp only [chunkStep, hitem] <;> try rfl
  split_ifs <;> rfl

@[simp] theorem chunkStep_byte_position (st : NDState) (ln : NDLine) :
    (chunkStep st ln).byte_position = st.byte_position := by
  rcases hitem : ln.item with _ | it <;>
    simp only [chunkStep, hitem] <;> try rfl
  split_ifs <;> rfl

@[simp] theorem autoSaveStep_total_read (fp : String) (st : NDState) :
    (autoSaveStep fp st).total_read = st.total_read := by
  unfold autoSaveStep; split_ifs <;> rfl

@[simp] theorem autoSaveStep_progress (fp : String) (st : NDState) :
    (autoSaveStep fp st).progress = st.progress := by
  unfold autoSaveStep; split_ifs <;> rfl

@[simp] theorem autoSaveStep_byte_position (fp : String) (st : NDState) :
    (autoSaveStep fp st).byte_position = st.byte_position := by
  unfold autoSaveStep; split_ifs <;> rfl

@[simp] theorem updateProgressLine_total_read (fp : String) (st : NDState) (ln : NDLine) :
    (updateProgressLine fp st ln).total_read = st.total_read := rfl

@[simp] theorem updateProgressLine_checkpoints (fp : String) (st : NDState) (ln : NDLine) :
    (updateProgressLine fp st ln).checkpoints = st.checkpoints := rfl

@[simp] theorem updateProgressLine_last_checkpoint_line (fp : String) (st : NDState) (ln : NDLine) :
    (updateProgressLine fp st ln).last_checkpoint_line = st.last_checkpoint_line := rfl

@[simp] theorem finishFile_total_read (st : NDState) :
    (finishFile st).total_read = st.total_read := by
  unfold finishFile; dsimp only; split_ifs <;> rfl

@[simp] theorem finishFile_checkpoints (st : NDState) :
    (finishFile st).checkpoints = st.checkpoints := by
  unfold finishFile; dsimp only; split_ifs <;> rfl

@[simp] theorem finishFile_progress (st : NDState) :
    (finishFile st).progress = st.progress := by
  unfold finishFile; dsimp only; split_ifs <;> rfl

/-! ## Invariants of the per-file loop -/

theorem runAux_halt_memory (fp : String) (mem : Nat → Nat) (stop : Nat → Bool) :
    ∀ (lines : List NDLine) (st : NDState),
      (runAux fp mem stop lines st).halted = some .memoryLimit →
      ∃ cp, (runAux fp mem stop lines st).state.checkpoints.getLast? = some cp ∧
        cp.reason = "memory_limit_exceeded" ∧
        cp.line_number = (runAux fp mem stop lines st).state.progress.line_number ∧
        cp.byte_position = (runAux fp mem stop lines st).state.progress.byte_position ∧
        cp.line_number % 1000 = 0 ∧ 88 < mem cp.line_number := by
  intro lines
  induction lines with
  | nil =>
    intro st h
    simp [runAux] at h
  | cons ln rest ih =>
    intro st h
    simp only [runAux, updateProgressLine_total_read] at h ⊢
    split_ifs at h ⊢ with h1 h2
    · refine ⟨memoryCheckpoint fp (updateProgressLine fp st ln), ?_, rfl, ?_, ?_, ?_, ?_⟩
      · dsimp only
        rw [List.getLast?_concat]
      · dsimp [memoryCheckpoint, updateProgressLine]
      · dsimp [memoryCheckpoint, updateProgressLine]
      · simpa [memoryCheckpoint, updateProgressLine] using h1.1
      · simpa [memoryCheckpoint, updateProgressLine] using h1.2
    · simp at h
    · exact ih _ h

theorem runAux_memory_trigger (fp : String) (mem : Nat → Nat) (stop : Nat → Bool)
    (hstop : ∀ t, stop t = false) :
    ∀ (lines : List NDLine) (st : NDState) (k : Nat),
      k < lines.length → (st.total_read + k) % 1000 = 0 → 88 < mem (st.total_read + k) →
      (runAux fp mem stop lines st).halted = some .memoryLimit := by
  intro lines
  induction lines with
  | nil =>
    intro st k hk
    simp at hk
  | cons ln rest ih =>
    intro st k hk h1000 hmemk
    simp only [runAux, updateProgressLine_total_read]
    split_ifs with h1 h2
    · rfl
    · rw [hstop] at h2
      exact absurd h2 (by simp)
    · have hk0 : k ≠ 0 := by
        rintro rfl
        exact h1 ⟨by simpa using h1000, by simpa using hmemk⟩
      obtain ⟨k', rfl⟩ : ∃ k', k = k' + 1 := ⟨k - 1, by omega⟩
      set st2 := chunkStep (autoSaveStep fp
        { updateProgressLine fp st ln with total_read := st.total_read + 1 }) ln with hst2
      have ht2 : st2.total_read = st.total_read + 1 := by
        rw [hst2, chunkStep_total_read, autoSaveStep_total_read]
      apply ih st2 k'
      · simpa using Nat.lt_of_succ_lt_succ (by simpa using hk)
      · rw [ht2, show st.total_read + 1 + k' = st.total_read + (k' + 1) from by omega]
        exact h1000
      · rw [ht2, show st.total_read + 1 + k' = st.total_read + (k' + 1) from by omega]
        exact hmemk

theorem runAux_complete (fp : String) (mem : Nat → Nat) (stop : Nat → Bool)
    (hmem : ∀ t, mem t ≤ 88) (hstop : ∀ t, stop t = false) :
    ∀ (lines : List NDLine) (st : NDState),
      (runAux fp mem stop lines st).halted = none ∧
      (runAux fp mem stop lines st).state.total_read = st.total_read + lines.length := by
  intro lines
  induction lines with
  | nil =>
    intro st
    constructor
    · rfl
    · simp [runAux]
  | cons ln rest ih =>
    intro st
    simp only [runAux, updateProgressLine_total_read]
    rw [if_neg, if_neg]
    · set st2 := chunkStep (autoSaveStep fp
        { updateProgressLine fp st ln with total_read := st.total_read + 1 }) ln with hst2
      have ht2 : st2.total_read = st.total_read + 1 := by
        rw [hst2, chunkStep_total_read, autoSaveStep_total_read]
      refine ⟨(ih st2).1, ?_⟩
      rw [(ih st2).2, ht2]
      simp
      omega
    · simp [hstop]
    · rintro ⟨-, hlt⟩
      have := hmem st.total_read
      omega

theorem runAux_autosave_inv (fp : String) (mem : Nat → Nat) (stop : Nat → Bool)
    (hmem : ∀ t, mem t ≤ 88) (hstop : ∀ t, stop t = false) :
    ∀ (lines : List NDLine) (st : NDState),
      st.last_checkpoint_line = 100000 * (st.total_read / 100000) →
      (∀ cp ∈ st.checkpoints, cp.reason = "auto_save" ∧ cp.line_number % 100000 = 0 ∧
        0 < cp.line_number ∧ cp.line_number ≤ st.total_read) →
      ∀ cp ∈ (runAux fp mem stop lines st).state.checkpoints,
        cp.reason = "auto_save" ∧ cp.line_number % 100000 = 0 ∧
        0 < cp.line_number ∧
        cp.line_number ≤ (runAux fp mem stop lines st).state.total_read := by
  intro lines
  induction lines with
  | nil =>
    intro st hlast hcps cp hcp
    simp only [runAux, finishFile_checkpoints, finishFile_total_read] at hcp ⊢
    exact hcps cp hcp
  | cons ln rest ih =>
    intro st hlast hcps
    simp only [runAux, updateProgressLine_total_read]
    rw [if_neg, if_neg]
    · apply ih
      · rw [chunkStep_last_checkpoint_line, chunkStep_total_read]
        unfold autoSaveStep
        dsimp only [updateProgressLine_total_read]
        split_ifs with hfire
        · dsimp only
          simp only [updateProgressLine_total_read,
            updateProgressLine_last_checkpoint_line] at hfire
          omega
        · dsimp only
          simp only [updateProgressLine_total_read,
            updateProgressLine_last_checkpoint_line] at hfire ⊢
          rw [hlast] at hfire ⊢
          omega
      · intro cp hcp
        rw [chunkStep_checkpoints] at hcp
        rw [chunkStep_total_read, autoSaveStep_total_read]
        unfold autoSaveStep at hcp
        dsimp only [updateProgressLine_total_read,
          updateProgressLine_last_checkpoint_line,
          updateProgressLine_checkpoints] at hcp ⊢
        split_ifs at hcp with hfire
        · rcases List.mem_append.mp hcp with h | h
          · have hp := hcps cp h
            exact ⟨hp.1, hp.2.1, hp.2.2.1, by omega⟩
          · simp only [List.mem_singleton] at h
            subst h
            refine ⟨rfl, ?_, ?_, ?_⟩
            · dsimp only
              rw [hlast] at hfire
              omega
            · dsimp only
              omega
            · dsimp only
              omega
        · have hp := hcps cp hcp
          exact ⟨hp.1, hp.2.1, hp.2.2.1, by omega⟩
    · simp [hstop]
    · rintro ⟨-, hlt⟩
      have := hmem st.total_read
      omega

theorem runAux_first_autosave (fp : String) (mem : Nat → Nat) (stop : Nat → Bool)
    (hmem : ∀ t, mem t ≤ 88) (hstop : ∀ t, stop t = false) :
    ∀ (lines : List NDLine) (st : NDState),
      st.checkpoints = [] → st.last_checkpoint_line = 0 →
      st.total_read + lines.length = 100000 → st.total_read < 100000 →
      ∃ cp, (runAux fp mem stop lines st).state.checkpoints = [cp] ∧
        cp.line_number = 100000 ∧ cp.reason = "auto_save" := by
  intro lines
  induction lines with
  | nil =>
    intro st _ _ hsum hlt
    simp at hsum
    omega
  | cons ln rest ih =>
    intro st hcp0 hlast hsum hlt
    simp only [runAux, updateProgressLine_total_read]
    rw [if_neg, if_neg]
    · by_cases hend : st.total_read + 1 = 100000
      · have hrest : rest = [] := by
          have : rest.length = 0 := by
            simp only [List.length_cons] at hsum
            omega
          exact List.length_eq_zero.mp this
        subst hrest
        simp only [runAux, finishFile_checkpoints, chunkStep_checkpoints]
        unfold autoSaveStep
        dsimp only [updateProgressLine_total_read,
          updateProgressLine_last_checkpoint_line, updateProgressLine_checkpoints]
        rw [if_pos (by constructor <;> omega)]
        dsimp only [updateProgressLine_checkpoints]
        rw [hcp0, List.nil_append]
        exact ⟨_, rfl, by show st.total_read + 1 = 100000; omega, rfl⟩
      · apply ih
        · rw [chunkStep_checkpoints]
          unfold autoSaveStep
          dsimp only [updateProgressLine_total_read,
            updateProgressLine_last_checkpoint_line, updateProgressLine_checkpoints]
          rw [if_neg]
          · exact hcp0
          · rw [hlast]
            rintro ⟨-, habs⟩
            omega
        · rw [chunkStep_last_checkpoint_line]
          unfold autoSaveStep
          dsimp only [updateProgressLine_total_read,
            updateProgressLine_last_checkpoint_line]
          rw [if_neg]
          · exact hlast
          · rw [hlast]
            rintro ⟨-, habs⟩
            omega
        · rw [chunkStep_total_read, autoSaveStep_total_read]
          simp only [List.length_cons] at hsum
          dsimp only
          omega
        · rw [chunkStep_total_read, autoSaveStep_total_read]
          dsimp only
          omega
    · simp [hstop]
    · rintro ⟨-, hlt2⟩
      have := hmem st.total_read
      omega

end NDLoader

/-! ## Claim C1 -/

/-- Claim C1 is false on the code: the restart position is resolved from
the checkpoint's byte offset, not by scanning line terminators, and one
full line is skipped by the `readline()` call.  Concretely, on the
three-line file "a\nb\nc\n" (bytes 97 10 98 10 99 10) a memory halt at
the first sampling point saves a checkpoint with line_number 0 and
byte_position 2, and the resumed run processes only the third line — not
a suffix starting at or before line 0. -/
theorem c1_counterexample :
    (NDLoader.runND "f" (fun _ => 99) (fun _ => false)
        [⟨2, none⟩, ⟨2, none⟩, ⟨2, none⟩]).state.checkpoints =
      [{ file_path := "f", byte_position := 2, line_number := 0,
         inserted_count := 0, reason := "memory_limit_exceeded" }] ∧
    NDLoader.pyLines [97, 10, 98, 10, 99, 10] = [[97, 10], [98, 10], [99, 10]] ∧
    NDLoader.resumeProcessedLines [97, 10, 98, 10, 99, 10] 2 = [[99, 10]] ∧
    NDLoader.resumeProcessedLines [97, 10, 98, 10, 99, 10] 2 ≠
      (NDLoader.pyLines [97, 10, 98, 10, 99, 10]).drop 0 := by
  decide

/-- Claim C1, amended: resuming seeks to the saved byte offset — always a
line boundary, say after `m ≥ 1` complete lines — and then unconditionally
discards one further `readline()`, so the loop processes exactly
`lines.drop (m + 1)`: the line at index `m` is permanently skipped (for an
auto-save checkpoint `m` equals the saved line_number `N`, so line `N` is
lost; for a memory-halt checkpoint `m = N + 1`, so lines `N` and `N + 1`
are lost). -/
theorem c1_resume_skips_line (lines : List (List Nat))
    (hterm : ∀ l ∈ lines, NDLoader.lineTerminated l)
    (m : Nat) (h1 : 1 ≤ m) (h2 : m ≤ lines.length) :
    NDLoader.resumeProcessedLines lines.flatten ((lines.take m).flatten).length =
      lines.drop (m + 1) := by
  have hpos : 0 < ((lines.take m).flatten).length := by
    rcases lines with _ | ⟨l0, rest⟩
    · simp at h2; omega
    · obtain ⟨m', rfl⟩ : ∃ m', m = m' + 1 := ⟨m - 1, by omega⟩
      rw [List.take_succ_cons, List.flatten_cons, List.length_append]
      have hl0 : l0 ≠ [] := (hterm l0 (by simp)).1
      have := List.length_pos.mpr hl0
      omega
  unfold NDLoader.resumeProcessedLines
  rw [if_pos hpos]
  have hsplit : lines.flatten = (lines.take m).flatten ++ (lines.drop m).flatten := by
    rw [← List.flatten_append, List.take_append_drop]
  rw [hsplit, List.drop_left]
  by_cases hm : m < lines.length
  · have hdrop : lines.drop m = lines[m] :: lines.drop (m + 1) :=
      List.drop_eq_getElem_cons hm
    rw [hdrop, List.flatten_cons,
      NDLoader.pyReadLine_append _ _ (hterm _ (List.getElem_mem hm))]
    exact NDLoader.pyLines_flatten _ (fun l hl => hterm l (List.mem_of_mem_drop hl))
  · have hm2 : m = lines.length := by omega
    rw [hm2, List.drop_length, List.flatten_nil,
      show lines.drop (lines.length + 1) = [] from
        List.drop_eq_nil_of_le (by omega)]
    rfl

/-- Witness for C1 (amended) at the file "a\nb\nc\n" with `m = 1`. -/
theorem c1_resume_skips_line_witness :
    NDLoader.resumeProcessedLines
        ([[97, 10], [98, 10], [99, 10]] : List (List Nat)).flatten
        ((([[97, 10], [98, 10], [99, 10]] : List (List Nat)).take 1).flatten).length =
      ([[97, 10], [98, 10], [99, 10]] : List (List Nat)).drop (1 + 1) :=
  c1_resume_skips_line [[97, 10], [98, 10], [99, 10]] (by decide) 1 (by decide) (by decide)

/-! ## Claim C2 -/

/-- Claim C2: `save_checkpoint` writes the new checkpoint to a temp file
in the same directory and atomically renames it over the durable file, so
at every crash point surrounding the save the durable slot holds either
the prior contents or the complete new checkpoint — never a truncated
file — and a reader therefore loads either the prior checkpoint (or
nothing) or the new one. -/
theorem c2_atomic_checkpoint_save (prior : Option CheckpointManager.FileData)
    (c : CheckpointDoc)
    (s : Option CheckpointManager.FileData × Option CheckpointManager.FileData)
    (hs : s ∈ CheckpointManager.save_checkpoint_states prior c) :
    (s.2 = prior ∨ s.2 = some (.whole c)) ∧
    (CheckpointManager.load_checkpoint s.2 = CheckpointManager.load_checkpoint prior ∨
     CheckpointManager.load_checkpoint s.2 =
       CheckpointManager.load_checkpoint (some (.whole c))) := by
  simp only [CheckpointManager.save_checkpoint_states, List.mem_cons,
    List.mem_singleton, List.not_mem_nil, or_false] at hs
  rcases hs with h | h | h | h <;> subst h <;>
    exact ⟨by simp, by simp⟩

/-- Witness for C2 at a concrete prior state and checkpoint. -/
theorem c2_atomic_checkpoint_save_witness :
    (((none : Option CheckpointManager.FileData), (none : Option CheckpointManager.FileData)).2 = none ∨
      ((none : Option CheckpointManager.FileData), (none : Option CheckpointManager.FileData)).2 =
        some (.whole legacyDoc)) ∧
    (CheckpointManager.load_checkpoint
        ((none : Option CheckpointManager.FileData), (none : Option CheckpointManager.FileData)).2 =
      CheckpointManager.load_checkpoint none ∨
     CheckpointManager.load_checkpoint
        ((none : Option CheckpointManager.FileData), (none : Option CheckpointManager.FileData)).2 =
      CheckpointManager.load_checkpoint (some (.whole legacyDoc))) :=
  c2_atomic_checkpoint_save none legacyDoc (none, none) (by decide)

/-! ## Claim C4 -/

/-- Claim C4: whenever a memory sample (taken every 1,000 lines) exceeds
the hard-coded 88 percent limit, the per-file loop halts with a planned
memory stop — returning its statistics normally — and the last saved
checkpoint carries reason memory_limit_exceeded with line_number and
byte_position equal to the in-memory progress mirror's exact cursor at
that instant, taken at a sampling point where the limit was exceeded. -/
theorem c4_memory_halt (fp : String) (mem : Nat → Nat) (stop : Nat → Bool)
    (lines : List NDLoader.NDLine) (hstop : ∀ t, stop t = false) (k : Nat)
    (hk : k < lines.length) (hk0 : k % 1000 = 0) (hmemk : 88 < mem k) :
    (NDLoader.runND fp mem stop lines).halted = some .memoryLimit ∧
    ∃ cp, (NDLoader.runND fp mem stop lines).state.checkpoints.getLast? = some cp ∧
      cp.reason = "memory_limit_exceeded" ∧
      cp.line_number = (NDLoader.runND fp mem stop lines).state.progress.line_number ∧
      cp.byte_position = (NDLoader.runND fp mem stop lines).state.progress.byte_position ∧
      cp.line_number % 1000 = 0 ∧ 88 < mem cp.line_number := by
  have h1 : (NDLoader.runND fp mem stop lines).halted = some .memoryLimit := by
    unfold NDLoader.runND
    exact NDLoader.runAux_memory_trigger fp mem stop hstop lines _ k hk
      (by simpa [NDLoader.initState] using hk0)
      (by simpa [NDLoader.initState] using hmemk)
  refine ⟨h1, ?_⟩
  unfold NDLoader.runND at h1 ⊢
  exact NDLoader.runAux_halt_memory fp mem stop lines _ h1

/-- Witness for C4: memory pegged at 99 percent halts a one-line run at
line 0 with the matching checkpoint. -/
theorem c4_memory_halt_witness :
    (NDLoader.runND "f" (fun _ => 99) (fun _ => false) [⟨2, none⟩]).halted =
      some .memoryLimit ∧
    ∃ cp, (NDLoader.runND "f" (fun _ => 99) (fun _ => false)
        [⟨2, none⟩]).state.checkpoints.getLast? = some cp ∧
      cp.reason = "memory_limit_exceeded" ∧
      cp.line_number = (NDLoader.runND "f" (fun _ => 99) (fun _ => false)
        [⟨2, none⟩]).state.progress.line_number ∧
      cp.byte_position = (NDLoader.runND "f" (fun _ => 99) (fun _ => false)
        [⟨2, none⟩]).state.progress.byte_position ∧
      cp.line_number % 1000 = 0 ∧ 88 < (fun _ : Nat => 99) cp.line_number :=
  c4_memory_halt "f" (fun _ => 99) (fun _ => false) [⟨2, none⟩]
    (fun _ => rfl) 0 (by decide) (by decide) (by decide)

/-! ## Claim C9 -/

/-- Claim C9 is false on the code: in an undisturbed run over 50,000
consumed lines not a single auto_save checkpoint is persisted — the
50,000-line cadence only prints status; the auto-save interval is
100,000 lines. -/
theorem c9_counterexample :
    (NDLoader.runND "basket-01.json" (fun _ => 0) (fun _ => false)
        (List.replicate 50000 ⟨2, none⟩)).state.total_read = 50000 ∧
    (NDLoader.runND "basket-01.json" (fun _ => 0) (fun _ => false)
        (List.replicate 50000 ⟨2, none⟩)).state.checkpoints = [] := by
  have hmem : ∀ t : Nat, (fun _ : Nat => 0) t ≤ 88 := fun _ => Nat.zero_le _
  have hstop : ∀ t : Nat, (fun _ : Nat => false) t = false := fun _ => rfl
  have hc := NDLoader.runAux_complete "basket-01.json" _ _ hmem hstop
    (List.replicate 50000 ⟨2, none⟩) (NDLoader.initState "basket-01.json")
  have h0 : (NDLoader.initState "basket-01.json").total_read = 0 := rfl
  constructor
  · unfold NDLoader.runND
    rw [hc.2, List.length_replicate, h0]
  · unfold NDLoader.runND
    have hinv := NDLoader.runAux_autosave_inv "basket-01.json" _ _ hmem hstop
      (List.replicate 50000 ⟨2, none⟩) (NDLoader.initState "basket-01.json")
      (by simp [NDLoader.initState]) (by simp [NDLoader.initState])
    rw [List.eq_nil_iff_forall_not_mem]
    intro cp hcp
    obtain ⟨-, hmod, hpos2, hle⟩ := hinv cp hcp
    rw [hc.2, List.length_replicate, h0] at hle
    omega

/-- Claim C9, amended: in an undisturbed run (memory below the limit, no
interrupt) every persisted checkpoint has reason auto_save and a
line_number that is a positive multiple of 100,000; the first auto-save
lands exactly when the 100,000th line is consumed (a run of exactly
100,000 lines ends with precisely that one checkpoint).  Status printing,
by contrast, happens every 50,000 lines. -/
theorem c9_auto_save_cadence (fp : String) (mem : Nat → Nat) (stop : Nat → Bool)
    (lines : List NDLoader.NDLine)
    (hmem : ∀ t, mem t ≤ 88) (hstop : ∀ t, stop t = false) :
    (∀ cp ∈ (NDLoader.runND fp mem stop lines).state.checkpoints,
       cp.reason = "auto_save" ∧ cp.line_number % 100000 = 0 ∧
       0 < cp.line_number ∧ cp.line_number ≤ lines.length) ∧
    (lines.length = 100000 →
       ∃ cp, (NDLoader.runND fp mem stop lines).state.checkpoints = [cp] ∧
         cp.line_number = 100000 ∧ cp.reason = "auto_save") := by
  constructor
  · intro cp hcp
    unfold NDLoader.runND at hcp
    have hinv := NDLoader.runAux_autosave_inv fp mem stop hmem hstop lines
      (NDLoader.initState fp) (by simp [NDLoader.initState])
      (by simp [NDLoader.initState]) cp hcp
    have hc := NDLoader.runAux_complete fp mem stop hmem hstop lines
      (NDLoader.initState fp)
    refine ⟨hinv.1, hinv.2.1, hinv.2.2.1, ?_⟩
    have hle := hinv.2.2.2
    rw [hc.2] at hle
    simpa [NDLoader.initState] using hle
  · intro hlen
    unfold NDLoader.runND
    exact NDLoader.runAux_first_autosave fp mem stop hmem hstop lines
      (NDLoader.initState fp) rfl rfl (by simp [NDLoader.initState, hlen]) (by simp [NDLoader.initState])

/-- Witness for C9 (amended) on an empty run. -/
theorem c9_auto_save_cadence_witness :
    (∀ cp ∈ (NDLoader.runND "f" (fun _ => 0) (fun _ => false) []).state.checkpoints,
       cp.reason = "auto_save" ∧ cp.line_number % 100000 = 0 ∧
       0 < cp.line_number ∧ cp.line_number ≤ ([] : List NDLoader.NDLine).length) ∧
    (([] : List NDLoader.NDLine).length = 100000 →
       ∃ cp, (NDLoader.runND "f" (fun _ => 0) (fun _ => false) []).state.checkpoints = [cp] ∧
         cp.line_number = 100000 ∧ cp.reason = "auto_save") :=
  c9_auto_save_cadence "f" (fun _ => 0) (fun _ => false) []
    (fun _ => Nat.zero_le _) (fun _ => rfl)

/-! ## Helper lemmas for the batching pipelines -/

theorem ceil_div_eq (B N : Nat) (hB : 0 < B) :
    (N + B - 1) / B = N / B + if N % B = 0 then 0 else 1 := by
  have hmod := Nat.mod_lt N hB
  have hdecomp := Nat.div_add_mod N B
  by_cases h : N % B = 0
  · rw [if_pos h]
    have hN : N = B * (N / B) := by omega
    rw [hN, show B * (N / B) + B - 1 = B * (N / B) + (B - 1) from by omega,
      Nat.mul_add_div hB, Nat.div_eq_of_lt (show B - 1 < B from by omega),
      Nat.mul_div_cancel_left _ hB]
  · rw [if_neg h]
    have hN : N + B - 1 = B * (N / B) + (N % B - 1 + B) := by omega
    rw [hN, Nat.mul_add_div hB, Nat.add_div_right _ hB,
      Nat.div_eq_of_lt (show N % B - 1 < B from by omega)]

theorem Loader.runItems_spec (B : Nat) (hB : 0 < B) :
    ∀ (items : List RawReview) (st : Loader.LoaderState),
      st.insert_batch_data.length < B →
      (Loader.runItems B items st).total_processed =
          st.total_processed +
            items.countP (fun i => (Loader.process_review_data i).isSome) ∧
      (Loader.runItems B items st).flushes =
        st.flushes ++
          List.replicate ((st.insert_batch_data.length +
              items.countP (fun i => (Loader.process_review_data i).isSome)) / B) B ++
          (if (st.insert_batch_data.length +
                items.countP (fun i => (Loader.process_review_data i).isSome)) % B = 0
            then []
            else [(st.insert_batch_data.length +
                items.countP (fun i => (Loader.process_review_data i).isSome)) % B]) := by
  intro items
  induction items with
  | nil =>
    intro st hlen
    simp only [List.countP_nil, Nat.add_zero]
    by_cases h0 : st.insert_batch_data = []
    · have hl0 : st.insert_batch_data.length = 0 := by simp [h0]
      constructor
      · simp [Loader.runItems, h0]
      · simp [Loader.runItems, h0, hl0]
    · have hne : st.insert_batch_data.isEmpty = false := by
        rw [Bool.eq_false_iff]
        intro hh
        exact h0 (List.isEmpty_iff.mp hh)
      have hl0 : st.insert_batch_data.length ≠ 0 :=
        fun hh => h0 (List.length_eq_zero.mp hh)
      constructor
      · simp [Loader.runItems, hne, Loader.flushBatch]
      · simp only [Loader.runItems, hne, Bool.false_eq_true, if_false]
        rw [Nat.div_eq_of_lt hlen, Nat.mod_eq_of_lt hlen, if_neg hl0]
        simp [Loader.flushBatch]
  | cons i rest ih =>
    intro st hlen
    rw [List.countP_cons]
    cases hda : Loader.process_review_data i with
    | none =>
      simp only [Loader.runItems, hda, Option.isSome_none, Bool.false_eq_true,
        if_false, Nat.add_zero]
      rw [if_neg (show ¬ B ≤ st.insert_batch_data.length from by omega)]
      exact ih { st with total_read := st.total_read + 1 } hlen
    | some r =>
      simp only [Loader.runItems, hda, Option.isSome_some, if_true]
      by_cases hfull : st.insert_batch_data.length + 1 = B
      · rw [if_pos (show B ≤ (st.insert_batch_data ++ [r]).length from by
          simp only [List.length_append, List.length_cons, List.length_nil]
          omega)]
        have hIH := ih (Loader.flushBatch
          { st with total_read := st.total_read + 1
                    total_processed := st.total_processed + 1
                    insert_batch_data := st.insert_batch_data ++ [r] })
          (by simp [Loader.flushBatch]; omega)
        constructor
        · rw [hIH.1]
          simp [Loader.flushBatch]
          omega
        · rw [hIH.2]
          simp only [Loader.flushBatch, List.length_append, List.length_cons,
            List.length_nil, Nat.zero_add, List.length_eq_zero]
          have h1 : st.insert_batch_data.length +
              (rest.countP (fun i => (Loader.process_review_data i).isSome) + 1) =
              rest.countP (fun i => (Loader.process_review_data i).isSome) + B := by
            omega
          rw [h1, Nat.add_div_right _ hB, Nat.add_mod_right, List.replicate_succ]
          rw [show st.insert_batch_data.length + 1 = B from hfull]
          simp [List.append_assoc]
      · rw [if_neg (show ¬ B ≤ (st.insert_batch_data ++ [r]).length from by
          simp only [List.length_append, List.length_cons, List.length_nil]
          omega)]
        have hIH := ih
          { st with total_read := st.total_read + 1
                    total_processed := st.total_processed + 1
                    insert_batch_data := st.insert_batch_data ++ [r] }
          (by simp; omega)
        constructor
        · rw [hIH.1]
          simp
          omega
        · rw [hIH.2]
          simp only [List.length_append, List.length_cons, List.length_nil,
            Nat.zero_add]
          have h1 : st.insert_batch_data.length + 1 +
              rest.countP (fun i => (Loader.process_review_data i).isSome) =
              st.insert_batch_data.length +
                (rest.countP (fun i => (Loader.process_review_data i).isSome) + 1) := by
            omega
          rw [h1]

theorem OptLoader.mid_flush_sizes (B : Nat) :
    ∀ (chunks : List (List RawReview)) (st : OptLoader.OptState),
      (∀ s ∈ st.flushes, B * 2 ≤ s) →
      ∀ s ∈ (chunks.foldl (OptLoader.collectChunk B) st).flushes, B * 2 ≤ s := by
  intro chunks
  induction chunks with
  | nil => intro st h; exact h
  | cons c rest ih =>
    intro st h
    rw [List.foldl_cons]
    apply ih
    intro s hs
    simp only [OptLoader.collectChunk] at hs
    split_ifs at hs with hcond
    · simp only [OptLoader.flushBatch] at hs
      rcases List.mem_append.mp hs with h2 | h2
      · exact h s h2
      · simp only [List.mem_singleton] at h2
        subst h2
        exact hcond
    · exact h s hs

/-! ## Claim C7 -/

/-- Claim C7 is false on the code for the chunk-based pipelines: with
insertion batch size B = 2 and one chunk of three validated records the
parallel loader performs a single flush of 3 records, not
ceil(3/2) = 2 flushes ending in a flush of 3 mod 2 = 1 records. -/
theorem c7_counterexample :
    (OptLoader.runOpt 2 [[{ nmId := some (.jstr "1"), text := some text21 },
        { nmId := some (.jstr "1"), text := some text21 },
        { nmId := some (.jstr "1"), text := some text21 }]]).total_processed = 3 ∧
    (OptLoader.runOpt 2 [[{ nmId := some (.jstr "1"), text := some text21 },
        { nmId := some (.jstr "1"), text := some text21 },
        { nmId := some (.jstr "1"), text := some text21 }]]).flushes = [3] ∧
    (3 + 2 - 1) / 2 = 2 ∧ 3 % 2 = 1 := by
  decide

/-- Claim C7, amended: loader.py's per-record loop satisfies the claim —
for N validated records it makes exactly ceil(N/B) flush calls and the
final flush holds N mod B records (or B when N is divisible by B) — but
the chunk-based pipelines check their buffer only after whole chunks, so
the parallel loader can make fewer calls, every one of its non-final
flushes holding at least 2B records. -/
theorem c7_batch_flush (B : Nat) (hB : 0 < B) (items : List RawReview)
    (chunks : List (List RawReview)) (s : Nat) :
    (Loader.runLoader B items).total_processed =
      items.countP (fun i => (Loader.process_review_data i).isSome) ∧
    (Loader.runLoader B items).flushes.length =
      (items.countP (fun i => (Loader.process_review_data i).isSome) + B - 1) / B ∧
    (Loader.runLoader B items).flushes.getLast? =
      (if items.countP (fun i => (Loader.process_review_data i).isSome) = 0 then none
       else if items.countP (fun i => (Loader.process_review_data i).isSome) % B = 0
       then some B
       else some (items.countP (fun i => (Loader.process_review_data i).isSome) % B)) ∧
    (s ∈ (OptLoader.runOpt B chunks).flushes.dropLast → B * 2 ≤ s) := by
  have hspec := Loader.runItems_spec B hB items
    { total_read := 0, total_processed := 0, total_inserted := 0,
      insert_batch_data := [], flushes := [] } (by simpa using hB)
  set N := items.countP (fun i => (Loader.process_review_data i).isSome) with hN
  unfold Loader.runLoader
  refine ⟨?_, ?_, ?_, ?_⟩
  · rw [hspec.1]
    simp
  · rw [hspec.2]
    simp only [List.nil_append, List.length_append, List.length_replicate,
      List.length_nil, Nat.zero_add]
    rw [ceil_div_eq B N hB]
    by_cases h : N % B = 0 <;> simp [h]
  · rw [hspec.2]
    simp only [List.nil_append, List.length_nil, Nat.zero_add]
    by_cases h : N % B = 0
    · rw [if_pos h, List.append_nil, List.getLast?_replicate]
      by_cases h0 : N = 0
      · rw [if_pos h0, if_pos (by rw [h0]; exact Nat.zero_div B)]
      · have hdiv : N / B ≠ 0 := by
          intro hd
          have hdm := Nat.div_add_mod N B
          rw [hd, h] at hdm
          simp at hdm
          exact h0 hdm.symm
        rw [if_neg hdiv, if_neg h0, if_pos h]
    · have hN0 : N ≠ 0 := fun hh => h (by rw [hh]; exact Nat.zero_mod B)
      rw [if_neg h, List.getLast?_concat, if_neg hN0, if_neg h]
  · intro hs
    have hmid := OptLoader.mid_flush_sizes B chunks
      { total_read := (chunks.map List.length).sum, total_processed := 0,
        total_inserted := 0, insert_batch_data := [], flushes := [] }
      (by intro x hx; simp at hx)
    simp only [OptLoader.runOpt] at hs
    split_ifs at hs with hemp
    · exact hmid s ((List.dropLast_sublist _).subset hs)
    · simp only [OptLoader.flushBatch] at hs
      rw [List.dropLast_concat] at hs
      exact hmid s hs

/-- Witness for C7 (amended): three validated records with batch size 2
give two flushes in loader.py, the last of one record. -/
theorem c7_batch_flush_witness :
    (Loader.runLoader 2 [{ nmId := some (.jstr "1"), text := some text21 },
        { nmId := some (.jstr "1"), text := some text21 },
        { nmId := some (.jstr "1"), text := some text21 }]).total_processed =
      ([{ nmId := some (.jstr "1"), text := some text21 },
        { nmId := some (.jstr "1"), text := some text21 },
        { nmId := some (.jstr "1"), text := some text21 }] : List RawReview).countP
        (fun i => (Loader.process_review_data i).isSome) ∧
    (Loader.runLoader 2 [{ nmId := some (.jstr "1"), text := some text21 },
        { nmId := some (.jstr "1"), text := some text21 },
        { nmId := some (.jstr "1"), text := some text21 }]).flushes.length =
      (([{ nmId := some (.jstr "1"), text := some text21 },
        { nmId := some (.jstr "1"), text := some text21 },
        { nmId := some (.jstr "1"), text := some text21 }] : List RawReview).countP
        (fun i => (Loader.process_review_data i).isSome) + 2 - 1) / 2 ∧
    (Loader.runLoader 2 [{ nmId := some (.jstr "1"), text := some text21 },
        { nmId := some (.jstr "1"), text := some text21 },
        { nmId := some (.jstr "1"), text := some text21 }]).flushes.getLast? =
      (if ([{ nmId := some (.jstr "1"), text := some text21 },
        { nmId := some (.jstr "1"), text := some text21 },
        { nmId := some (.jstr "1"), text := some text21 }] : List RawReview).countP
          (fun i => (Loader.process_review_data i).isSome) = 0 then none
       else if ([{ nmId := some (.jstr "1"), text := some text21 },
        { nmId := some (.jstr "1"), text := some text21 },
        { nmId := some (.jstr "1"), text := some text21 }] : List RawReview).countP
          (fun i => (Loader.process_review_data i).isSome) % 2 = 0
       then some 2
       else some (([{ nmId := some (.jstr "1"), text := some text21 },
        { nmId := some (.jstr "1"), text := some text21 },
        { nmId := some (.jstr "1"), text := some text21 }] : List RawReview).countP
          (fun i => (Loader.process_review_data i).isSome) % 2)) ∧
    ((0 : Nat) ∈ (OptLoader.runOpt 2 ([] : List (List RawReview))).flushes.dropLast →
      2 * 2 ≤ 0) :=
  c7_batch_flush 2 (by decide)
    [{ nmId := some (.jstr "1"), text := some text21 },
     { nmId := some (.jstr "1"), text := some text21 },
     { nmId := some (.jstr "1"), text := some text21 }] [] 0

/-! ## Claim C3 -/

/-- Claim C3 is false on the code for loader.py: its `count_words` counts
maximal alphanumeric runs, not whitespace tokens, so a record whose text
is eleven hyphenated tokens is emitted with word_count 22 while the
whitespace split of the same text has length 11. -/
theorem c3_counterexample :
    (Loader.process_review_data { nmId := some (.jstr "7"), text := some c3text }).map
        ReviewRecord.word_count = some 22 ∧
    (pySplit c3text).length = 11 := by
  decide

/-- Claim C3, amended: both transformers return `none` exactly when the
resolved identifier is absent or falsy, the text is absent or empty, or
their word count is at most 20 — where the parallel loader's word count
equals the whitespace-split length of the input text (and its emitted
word_count field matches it), while loader.py counts maximal
Latin/Cyrillic/digit runs, which its emitted word_count field reflects
and which can differ from the whitespace split. -/
theorem c3_transform_filter_law (item : RawReview) (rec rec2 : ReviewRecord) :
    (OptLoader.processItem item = none ↔
      (((pyOrJ item.nmId item.nmld).getD (.jstr "")).truthy = false ∨
       item.text.getD "" = "" ∨ (pySplit (item.text.getD "")).length ≤ 20)) ∧
    (OptLoader.processItem item = some rec →
       rec.word_count = (pySplit (item.text.getD "")).length) ∧
    (Loader.process_review_data item = none ↔
      (((pyOrJ item.nmId item.nmld).getD (.jstr "")).truthy = false ∨
       item.text.getD "" = "" ∨ Loader.count_words (item.text.getD "") ≤ 20)) ∧
    (Loader.process_review_data item = some rec2 →
       rec2.word_count = Loader.count_words (item.text.getD "")) := by
  refine ⟨?_, ?_, ?_, ?_⟩
  · constructor
    · intro h0
      simp only [OptLoader.processItem] at h0
      split_ifs at h0 with h1 h2
      · simp only [Bool.or_eq_true, Bool.not_eq_true', decide_eq_true_eq] at h1
        rcases h1 with h | h
        · exact Or.inl h
        · exact Or.inr (Or.inl h)
      · exact Or.inr (Or.inr (by rwa [count_words_eq_pySplit] at h2))
    · intro hcond
      rw [← count_words_eq_pySplit] at hcond
      simp only [OptLoader.processItem]
      split_ifs with h1 h2
      · rfl
      · rfl
      all_goals
        exfalso
        simp only [Bool.or_eq_true, Bool.not_eq_true', decide_eq_true_eq, not_or] at h1
        rcases hcond with h | h | h
        · exact h1.1 h
        · exact h1.2 h
        · exact h2 h
  · intro h
    simp only [OptLoader.processItem] at h
    split_ifs at h with h1 h2
    all_goals
      rw [Option.some_inj] at h
      subst h
      exact count_words_eq_pySplit _
  · constructor
    · intro h0
      cases hv : pyOrJ item.nmId item.nmld with
      | none => exact Or.inl rfl
      | some v =>
        simp only [Loader.process_review_data, hv] at h0
        split_ifs at h0 with h1 h2 h3
        · exact Or.inl (by rw [Option.getD_some]; rwa [Bool.not_eq_true'] at h1)
        · exact Or.inr (Or.inl h2)
        · exact Or.inr (Or.inr h3)
    · intro hcond
      cases hv : pyOrJ item.nmId item.nmld with
      | none => simp [Loader.process_review_data, hv]
      | some v =>
        simp only [Loader.process_review_data, hv]
        split_ifs with h1 h2 h3
        · rfl
        · rfl
        · rfl
        all_goals
          exfalso
          rw [Bool.not_eq_true'] at h1
          rw [hv, Option.getD_some] at hcond
          rcases hcond with h | h | h
          · exact h1 h
          · exact h2 h
          · exact h3 h
  · intro h
    cases hv : pyOrJ item.nmId item.nmld with
    | none => simp [Loader.process_review_data, hv] at h
    | some v =>
      simp only [Loader.process_review_data, hv] at h
      split_ifs at h with h1 h2 h3
      all_goals
        rw [Option.some_inj] at h
        subst h
        rfl

/-- Witness for C3 (amended) at a raw review with a 21-word text. -/
theorem c3_transform_filter_law_witness :
    (OptLoader.processItem { nmId := some (.jstr "9"), text := some text21 } = none ↔
      (((pyOrJ (some (.jstr "9")) none).getD (.jstr "")).truthy = false ∨
       (some text21).getD "" = "" ∨ (pySplit ((some text21).getD "")).length ≤ 20)) ∧
    (OptLoader.processItem { nmId := some (.jstr "9"), text := some text21 } = some rec21 →
       rec21.word_count = (pySplit ((some text21).getD "")).length) ∧
    (Loader.process_review_data { nmId := some (.jstr "9"), text := some text21 } = none ↔
      (((pyOrJ (some (.jstr "9")) none).getD (.jstr "")).truthy = false ∨
       (some text21).getD "" = "" ∨ Loader.count_words ((some text21).getD "") ≤ 20)) ∧
    (Loader.process_review_data { nmId := some (.jstr "9"), text := some text21 } = some rec21 →
       rec21.word_count = Loader.count_words ((some text21).getD "")) :=
  c3_transform_filter_law { nmId := some (.jstr "9"), text := some text21 } rec21 rec21

/-! ## Claim C5 -/

/-- Claim C5 is false on the code: a legacy byte-offset checkpoint is
loaded completely unchanged — `byte_position` retained, no line-based
version tag is added — so no narrowing to the line-based shape happens
on load. -/
theorem c5_counterexample :
    CheckpointManager.load_checkpoint (some (.whole legacyDoc)) = some legacyDoc ∧
    legacyDoc.byte_position = some 100 ∧
    legacyDoc.version = none := by
  decide

/-- Claim C5, amended: the byte-offset shape is the format the manager
itself requires — validation demands `byte_position` (and `line_number`),
load returns the document unchanged, and migration to the line-based
shape exists only in the separate manual conversion utility, whose
output (tagged line_based_v1, without `byte_position`) the manager's own
validation rejects. -/
theorem c5_checkpoint_format (c : CheckpointDoc)
    (h : CheckpointManager.validate_checkpoint c = true) :
    CheckpointManager.load_checkpoint (some (.whole c)) = some c ∧
    c.byte_position.isSome = true ∧
    c.line_number.isSome = true ∧
    CheckpointUtils.needs_conversion c = c.version.isNone ∧
    (CheckpointUtils.convert_old_checkpoint c).version = some "line_based_v1" ∧
    (CheckpointUtils.convert_old_checkpoint c).byte_position = none ∧
    CheckpointManager.validate_checkpoint (CheckpointUtils.convert_old_checkpoint c) =
      false := by
  have h2 := h
  simp only [CheckpointManager.validate_checkpoint, Bool.and_eq_true] at h2
  obtain ⟨⟨⟨⟨⟨hfile, hbyte⟩, hline⟩, hins⟩, hbnn⟩, hlnn⟩ := h2
  refine ⟨?_, hbyte, hline, ?_, rfl, rfl, ?_⟩
  · simp [CheckpointManager.load_checkpoint, h]
  · unfold CheckpointUtils.needs_conversion
    rw [hbyte, Bool.true_and]
  · simp [CheckpointManager.validate_checkpoint, CheckpointUtils.convert_old_checkpoint]

/-- Witness for C5 (amended) at a concrete valid legacy document. -/
theorem c5_checkpoint_format_witness :
    CheckpointManager.load_checkpoint (some (.whole legacyDoc)) = some legacyDoc ∧
    legacyDoc.byte_position.isSome = true ∧
    legacyDoc.line_number.isSome = true ∧
    CheckpointUtils.needs_conversion legacyDoc = legacyDoc.version.isNone ∧
    (CheckpointUtils.convert_old_checkpoint legacyDoc).version = some "line_based_v1" ∧
    (CheckpointUtils.convert_old_checkpoint legacyDoc).byte_position = none ∧
    CheckpointManager.validate_checkpoint
      (CheckpointUtils.convert_old_checkpoint legacyDoc) = false :=
  c5_checkpoint_format legacyDoc (by decide)

/-! ## Claim C6 -/

/-- Claim C6 is false on the code: a raw review with id "5", a 21-word
text and no color / answer / rating fields is accepted, and the
normalized record carries the empty string (not a null value) in both
`color` and `answer`; the rating does default to 5. -/
theorem c6_counterexample :
    (Loader.process_review_data { nmId := some (.jstr "5"), text := some text21 }).map
        (fun r => (r.color, r.answer, r.product_valuation)) =
      some (some "", some "", 5) := by
  decide

/-- Claim C6, amended: for a raw review with absent rating, color and
answer fields, both review transformers default the rating to 5 and emit
the empty string — not a null value — for color and answer. -/
theorem c6_absent_fields_default (item : RawReview) (r r2 : ReviewRecord)
    (hc : item.color = none) (ha : item.answer = none)
    (hp : item.productValuation = none) :
    (Loader.process_review_data item = some r →
       r.color = some "" ∧ r.answer = some "" ∧ r.product_valuation = 5) ∧
    (OptLoader.processItem item = some r2 →
       r2.color = some "" ∧ r2.answer = some "" ∧ r2.product_valuation = 5) := by
  constructor
  · intro h
    cases hv : pyOrJ item.nmId item.nmld with
    | none => simp [Loader.process_review_data, hv] at h
    | some v =>
      simp only [Loader.process_review_data, hv, hc, ha, hp, Option.getD_none,
        bne_self_eq_false, Bool.false_eq_true, if_false] at h
      split_ifs at h with h1 h2 h3
      rw [Option.some_inj] at h
      subst h
      exact ⟨rfl, rfl, rfl⟩
  · intro h
    simp only [OptLoader.processItem, hc, ha, hp, Option.getD_none,
      bne_self_eq_false, Bool.false_eq_true, if_false] at h
    split_ifs at h with h1 h2
    all_goals rw [Option.some_inj] at h
    all_goals subst h
    all_goals exact ⟨rfl, rfl, rfl⟩

/-- Witness for C6 (amended) at a concrete raw review. -/
theorem c6_absent_fields_default_witness :
    Loader.process_review_data { nmId := some (.jstr "9"), text := some text21 } =
      some rec21 ∧
    (rec21.color = some "" ∧ rec21.answer = some "" ∧ rec21.product_valuation = 5) :=
  ⟨by decide,
   (c6_absent_fields_default { nmId := some (.jstr "9"), text := some text21 }
      rec21 rec21 rfl rfl rfl).1 (by decide)⟩

/-! ## Claim C8 -/

/-- Claim C8 is false on the code in its exit-status part: the interrupt
handler terminates the process via `sys.exit(0)` — exit status 0, not a
distinguished non-zero status. -/
theorem c8_counterexample :
    (NDLoader.signal_handler
        { should_stop := false
          current_progress := { file_path := some "basket-01.json", byte_position := 10,
                                line_number := 3, inserted_count := 2 }
          has_manager := true, saved := [] }).exit_code = 0 := by
  decide

/-- Claim C8, amended: on an operator interrupt the handler sets the
shared stop flag, immediately saves a checkpoint with reason
user_interrupt taken verbatim from the in-memory progress mirror, sleeps
one second as a grace period, and then terminates the process — but with
exit status 0, which does not distinguish an interrupted run from a
completed one. -/
theorem c8_interrupt_shutdown (g : NDLoader.NDGlobals) (fp : String) (b l i : Nat)
    (hp : g.current_progress = ⟨some fp, b, l, i⟩) (hfp : fp ≠ "")
    (hm : g.has_manager = true) :
    (NDLoader.signal_handler g).globals.should_stop = true ∧
    (NDLoader.signal_handler g).globals.saved =
      g.saved ++ [⟨fp, b, l, i, "user_interrupt"⟩] ∧
    (NDLoader.signal_handler g).sleep_seconds = 1 ∧
    (NDLoader.signal_handler g).exit_code = 0 := by
  unfold NDLoader.signal_handler NDLoader.emergency_save_checkpoint
  simp [hp, hm, hfp]

/-- Witness for C8 (amended) at a concrete global state. -/
theorem c8_interrupt_shutdown_witness :
    (NDLoader.signal_handler
        { should_stop := false
          current_progress := { file_path := some "b.json", byte_position := 10,
                                line_number := 3, inserted_count := 2 }
          has_manager := true, saved := [] }).globals.should_stop = true ∧
    (NDLoader.signal_handler
        { should_stop := false
          current_progress := { file_path := some "b.json", byte_position := 10,
                                line_number := 3, inserted_count := 2 }
          has_manager := true, saved := [] }).globals.saved =
      ([] : List SavedCheckpoint) ++ [⟨"b.json", 10, 3, 2, "user_interrupt"⟩] ∧
    (NDLoader.signal_handler
        { should_stop := false
          current_progress := { file_path := some "b.json", byte_position := 10,
                                line_number := 3, inserted_count := 2 }
          has_manager := true, saved := [] }).sleep_seconds = 1 ∧
    (NDLoader.signal_handler
        { should_stop := false
          current_progress := { file_path := some "b.json", byte_position := 10,
                                line_number := 3, inserted_count := 2 }
          has_manager := true, saved := [] }).exit_code = 0 :=
  c8_interrupt_shutdown _ "b.json" 10 3 2 rfl (by decide) rfl

/-! ## Claim C10 -/

/-- Claim C10 is false on the code for the review loaders: both accept a
raw review whose `nmId` is the string "0" (a truthy Python value) and
emit it as the record's identifier, instead of filtering it out. -/
theorem c10_counterexample :
    (Loader.process_review_data { nmId := some (.jstr "0"), text := some text21 }).map
        ReviewRecord.nm_id = some "0" ∧
    (OptLoader.processItem { nmId := some (.jstr "0"), text := some text21 }).map
        ReviewRecord.nm_id = some "0" := by
  decide

/-- Claim C10, amended: only the products loader treats zero-valued
identifiers as missing — `parse_product_item` rejects any record whose
resolved identifier has `nm_id_int` 0, which covers the integer 0, the
strings "0" and "", and every digit-free string; the review loaders
filter only falsy identifiers, accepting the nonempty string "0". -/
theorem c10_zero_identifier (item : RawProduct) (v : JVal) (s : String)
    (hid : NDLoader.resolve_nm_id item = some v)
    (hzero : NDLoader.nm_id_int v = 0)
    (hnodig : ∀ c ∈ s.data, c.isDigit = false) :
    NDLoader.parse_product_item item = none ∧
    NDLoader.nm_id_int (.jint 0) = 0 ∧
    NDLoader.nm_id_int (.jstr "0") = 0 ∧
    NDLoader.nm_id_int (.jstr "") = 0 ∧
    NDLoader.nm_id_int (.jstr s) = 0 ∧
    (OptLoader.processItem { nmId := some (.jstr "0"), text := some text21 }).isSome =
      true := by
  refine ⟨?_, by decide, by decide, by decide, ?_, by decide⟩
  · unfold NDLoader.parse_product_item
    rw [hid]
    simp [hzero]
  · have h2 : digitsOnly s = "" := by
      unfold digitsOnly
      have h3 : s.data.filter (fun c => c.isDigit) = [] := by
        rw [List.filter_eq_nil]
        intro a ha
        rw [hnodig a ha]
        simp
      rw [h3]
    simp only [NDLoader.nm_id_int, JVal.pyInt, JVal.pyStr,
      pyIntOfString_no_digit s hnodig, h2]
    simp

/-- Witness for C10 (amended) at a digit-free string identifier. -/
theorem c10_zero_identifier_witness :
    NDLoader.parse_product_item { nm_id := some (.jstr "xyz") } = none ∧
    NDLoader.nm_id_int (.jint 0) = 0 ∧
    NDLoader.nm_id_int (.jstr "0") = 0 ∧
    NDLoader.nm_id_int (.jstr "") = 0 ∧
    NDLoader.nm_id_int (.jstr "xyz") = 0 ∧
    (OptLoader.processItem { nmId := some (.jstr "0"), text := some text21 }).isSome =
      true :=
  c10_zero_identifier { nm_id := some (.jstr "xyz") } (.jstr "xyz") "xyz"
    rfl (by decide) (by decide)
